import Mathlib

/-!
Shallow embedding of the esplora-rs credential/token lifecycle manager
(src/auth.rs, src/error.rs, and the authorization-relevant part of
src/lib.rs).

Modelling conventions:
* `DateTime<Utc>` timestamps become `Int` (seconds); `chrono::Duration::seconds`
  becomes integer addition.
* The external token provider (the HTTP round trip performed by
  `Auth::fetch_token`) is a parameter `ProviderBehavior` describing what the
  single POST to the token endpoint does: transport failure, non-2xx status,
  2xx with a body that does not deserialize to `TokenResponse`, or a grant of
  `access_token` / `expires_in`.
* Each operation returns, besides its Rust result, the updated `AuthInner`
  state and the number of HTTP requests made to the token endpoint, so that
  network-call counts are part of the embedding.
* `reqwest::Error` is modelled by the kind it exposes (`is_connect`,
  `is_status`, `is_decode`); `error_for_status` produces a status error that
  carries the status code (reqwest does not retain the body there).
-/

/-- Kind of a `reqwest::Error`, the discrimination reqwest itself exposes. -/
inductive ReqwestErrorKind where
  | connect
  | status (code : Nat)
  | decode
deriving DecidableEq

/-- Model of `reqwest::Error`: the kind is all the claims inspect. -/
structure ReqwestError where
  kind : ReqwestErrorKind
deriving DecidableEq

/-- The crate error enum, from src/error.rs lines 4-24. -/
inductive Error where
  | Reqwest (e : ReqwestError)
  | Url (msg : String)
  | SerdeJson (msg : String)
  | Auth (msg : String)
  | EnvVar (name : String)
  | Api (msg : String)
deriving DecidableEq

/-- src/auth.rs line 8: `const TOKEN_EXPIRY_BUFFER_SECONDS: i64 = 30;`. -/
def TOKEN_EXPIRY_BUFFER_SECONDS : Int := 30

/-- src/auth.rs lines 10-14: the deserialized provider response body. -/
structure TokenResponse where
  access_token : String
  expires_in : Int
deriving DecidableEq

/-- src/auth.rs lines 16-20: a cached token with its absolute expiry. -/
structure Token where
  access_token : String
  expires : Int
deriving DecidableEq

/-- src/auth.rs lines 22-26: `Utc::now() >= self.expires`, with the call-time
clock passed explicitly. -/
def Token.is_expired (t : Token) (now : Int) : Bool :=
  decide (t.expires ≤ now)

/-- src/auth.rs lines 28-35: the state behind the mutex. The stateless
`http_client` handle is omitted. -/
structure AuthInner where
  client_id : Option String
  client_secret : Option String
  token_url : Option String
  token : Option Token
deriving DecidableEq

/-- What the single form-encoded POST of `Auth::fetch_token` to the token
endpoint does, seen from the client: the four ways lines 104-112 of
src/auth.rs can go. `reject` is any status that makes `error_for_status`
fail; `malformed` is a 2xx whose body does not deserialize into
`TokenResponse`. -/
inductive ProviderBehavior where
  | unreachable
  | reject (code : Nat)
  | malformed
  | grant (access_token : String) (expires_in : Int)
deriving DecidableEq

/-- The grant branches of the provider are the refresh failures of the claim
texts: transport error, non-2xx status, malformed JSON body. -/
def ProviderBehavior.isFailing : ProviderBehavior → Bool
  | ProviderBehavior.unreachable => true
  | ProviderBehavior.reject _ => true
  | ProviderBehavior.malformed => true
  | ProviderBehavior.grant _ _ => false

/-- src/auth.rs lines 43-56: `Auth::new` populates every credential field. -/
def Auth.new (client_id client_secret token_url : String) : AuthInner :=
  { client_id := some client_id
    client_secret := some client_secret
    token_url := some token_url
    token := none }

/-- src/auth.rs lines 58-70: `Auth::new_public` leaves every field empty. -/
def Auth.new_public : AuthInner :=
  { client_id := none
    client_secret := none
    token_url := none
    token := none }

/-- src/auth.rs lines 97-102: the form parameters of the token request. -/
def tokenRequestParams (client_id client_secret : String) :
    List (String × String) :=
  [("grant_type", "client_credentials"),
   ("client_id", client_id),
   ("client_secret", client_secret),
   ("scope", "openid")]

/-- src/auth.rs lines 92-121: `Auth::fetch_token`. The three `ok_or` guards
come first (lines 93-95, in that order, making no network request); then the
POST happens (one network request) and its outcome is dictated by the
provider behaviour: `send().await?` transport failure, `error_for_status()?`
on a non-2xx, `response.json().await?` decode failure, or the success path
computing `expires = now + (expires_in - TOKEN_EXPIRY_BUFFER_SECONDS)` and
storing the new token (lines 114-119). The result triple is
(Rust result, updated state, token-endpoint requests made). -/
def fetch_token (provider : ProviderBehavior) (now : Int) (inner : AuthInner) :
    Except Error Token × AuthInner × Nat :=
  match inner.client_id, inner.client_secret, inner.token_url with
  | none, _, _ => (Except.error (Error.Auth "client_id not set"), inner, 0)
  | some _, none, _ => (Except.error (Error.Auth "client_secret not set"), inner, 0)
  | some _, some _, none => (Except.error (Error.Auth "token_url not set"), inner, 0)
  | some client_id, some client_secret, some _ =>
    let _params := tokenRequestParams client_id client_secret
    match provider with
    | ProviderBehavior.unreachable =>
      (Except.error (Error.Reqwest ⟨ReqwestErrorKind.connect⟩), inner, 1)
    | ProviderBehavior.reject code =>
      (Except.error (Error.Reqwest ⟨ReqwestErrorKind.status code⟩), inner, 1)
    | ProviderBehavior.malformed =>
      (Except.error (Error.Reqwest ⟨ReqwestErrorKind.decode⟩), inner, 1)
    | ProviderBehavior.grant access_token expires_in =>
      let new_token : Token :=
        { access_token := access_token
          expires := now + (expires_in - TOKEN_EXPIRY_BUFFER_SECONDS) }
      (Except.ok new_token, { inner with token := some new_token }, 1)

/-- src/auth.rs lines 87-89: the fall-through tail of `Auth::get_token` that
fetches a new token and returns its access token string. -/
def get_token_refresh (provider : ProviderBehavior) (now : Int)
    (inner : AuthInner) : Except Error (Option String) × AuthInner × Nat :=
  match fetch_token provider now inner with
  | (Except.ok new_token, inner2, n) =>
    (Except.ok (some new_token.access_token), inner2, n)
  | (Except.error e, inner2, n) => (Except.error e, inner2, n)

/-- src/auth.rs lines 74-90: `Auth::get_token`. The whole body runs with the
mutex held, so one evaluation of this function is one critical section.
Early return `Ok(None)` when `client_id` is absent (lines 77-79); early
return of the cached access token when present and not expired (lines
81-85); otherwise refresh (lines 87-89). -/
def get_token (provider : ProviderBehavior) (now : Int) (inner : AuthInner) :
    Except Error (Option String) × AuthInner × Nat :=
  if inner.client_id.isNone then (Except.ok none, inner, 0)
  else
    match inner.token with
    | some token =>
      if ! token.is_expired now then
        (Except.ok (some token.access_token), inner, 0)
      else get_token_refresh provider now inner
    | none => get_token_refresh provider now inner

/-- Helper predicate: the condition under which `get_token` (with credentials
present) takes the refresh path — cached token absent or expired. -/
def AuthInner.tokenInvalid (inner : AuthInner) (now : Int) : Bool :=
  match inner.token with
  | none => true
  | some t => t.is_expired now

/-- Helper predicate: all three credential fields populated, as after
`Auth::new`. -/
def AuthInner.wellFormed (inner : AuthInner) : Bool :=
  inner.client_id.isSome && inner.client_secret.isSome && inner.token_url.isSome

/-- Whether a `get_token` outcome is the defensive `Error::Auth` kind. -/
def resultIsAuthErr : Except Error (Option String) → Bool
  | Except.error (Error.Auth _) => true
  | _ => false

/-- Runs a sequence of `get_token` calls, one after the other — exactly the
serialization the mutex of `Auth` enforces on concurrent callers. Each call
supplies the provider behaviour in effect and its clock reading. Returns the
list of results, the final state and the total number of token-endpoint
requests. -/
def runCalls (calls : List (ProviderBehavior × Int)) (inner : AuthInner) :
    List (Except Error (Option String)) × AuthInner × Nat :=
  match calls with
  | [] => ([], inner, 0)
  | (p, now) :: rest =>
    let step := get_token p now inner
    let tail := runCalls rest step.2.1
    (step.1 :: tail.1, tail.2.1, step.2.2 + tail.2.2)

/-- src/lib.rs lines 65-78 (`Client::get`; lines 80-98 `Client::post` and the
other verbs are identical in this respect): the headers attached to the
outbound API request. The Rust writes
`.header(AUTHORIZATION, format!("Bearer {}", token))` where `token` is the
`Option<String>` returned by `get_token` — the header is attached
unconditionally, for `None` as well as `Some`. `Option<String>` has no
`Display` impl in Rust, so the formatting is modelled by the `Debug`
rendering; nothing below depends on that rendering choice, only on the
header being attached and on its value not being `Bearer <token>`. -/
def formatBearerArg : Option String → String
  | some s => "Some(\"" ++ s ++ "\")"
  | none => "None"

/-- The header list each request-sending method of `Client` builds. -/
def requestHeaders (token : Option String) : List (String × String) :=
  [("Authorization", "Bearer " ++ formatBearerArg token)]

/-- What the API endpoint itself answers, for the downstream part of
`Client::get`: success body, a status failing `error_for_status`, or a
transport failure. -/
inductive ApiBehavior where
  | ok (body : String)
  | reject (code : Nat)
  | unreachable
deriving DecidableEq

/-- src/lib.rs lines 65-78: `Client::get`. The token is obtained first and an
error from `get_token` propagates with `?` unchanged — no wrapping or added
context; then the API request is sent (with `requestHeaders`), and its
`error_for_status` or transport failures surface as the same
`Error::Reqwest` variant. -/
def clientGet (provider : ProviderBehavior) (api : ApiBehavior) (now : Int)
    (inner : AuthInner) : Except Error String × AuthInner :=
  match get_token provider now inner with
  | (Except.error e, inner2, _) => (Except.error e, inner2)
  | (Except.ok token, inner2, _) =>
    let _headers := requestHeaders token
    match api with
    | ApiBehavior.ok body => (Except.ok body, inner2)
    | ApiBehavior.reject code =>
      (Except.error (Error.Reqwest ⟨ReqwestErrorKind.status code⟩), inner2)
    | ApiBehavior.unreachable =>
      (Except.error (Error.Reqwest ⟨ReqwestErrorKind.connect⟩), inner2)

/-! ## Helper lemmas shared by the claim theorems -/

theorem get_token_no_creds (p : ProviderBehavior) (now : Int)
    (inner : AuthInner) (h : inner.client_id = none) :
    get_token p now inner = (Except.ok none, inner, 0) := by
  simp [get_token, h]

theorem get_token_fast_path (p : ProviderBehavior) (now : Int)
    (inner : AuthInner) (t : Token) (hcid : inner.client_id.isSome = true)
    (htok : inner.token = some t) (hvalid : t.is_expired now = false) :
    get_token p now inner = (Except.ok (some t.access_token), inner, 0) := by
  have hnn : inner.client_id.isNone = false := by
    cases hc : inner.client_id <;> simp [hc] at hcid ⊢
  simp [get_token, hnn, htok, hvalid]

theorem get_token_refresh_path (p : ProviderBehavior) (now : Int)
    (inner : AuthInner) (hcid : inner.client_id.isSome = true)
    (hinv : inner.tokenInvalid now = true) :
    get_token p now inner = get_token_refresh p now inner := by
  have hnn : inner.client_id.isNone = false := by
    cases hc : inner.client_id <;> simp [hc] at hcid ⊢
  cases htok : inner.token with
  | none => simp [get_token, hnn, htok]
  | some t =>
    have hexp : t.is_expired now = true := by
      simpa [AuthInner.tokenInvalid, htok] using hinv
    simp [get_token, hnn, htok, hexp]

theorem fetch_token_wf (p : ProviderBehavior) (now : Int) (inner : AuthInner)
    (hwf : inner.wellFormed = true) :
    fetch_token p now inner =
      match p with
      | ProviderBehavior.unreachable =>
        (Except.error (Error.Reqwest ⟨ReqwestErrorKind.connect⟩), inner, 1)
      | ProviderBehavior.reject code =>
        (Except.error (Error.Reqwest ⟨ReqwestErrorKind.status code⟩), inner, 1)
      | ProviderBehavior.malformed =>
        (Except.error (Error.Reqwest ⟨ReqwestErrorKind.decode⟩), inner, 1)
      | ProviderBehavior.grant tk exp =>
        (Except.ok ⟨tk, now + (exp - TOKEN_EXPIRY_BUFFER_SECONDS)⟩,
         { inner with token := some ⟨tk, now + (exp - TOKEN_EXPIRY_BUFFER_SECONDS)⟩ },
         1) := by
  obtain ⟨cid, cs, url, tok⟩ := inner
  cases cid with
  | none => simp [AuthInner.wellFormed] at hwf
  | some a =>
    cases cs with
    | none => simp [AuthInner.wellFormed] at hwf
    | some b =>
      cases url with
      | none => simp [AuthInner.wellFormed] at hwf
      | some c => cases p <;> rfl

theorem get_token_preserves_creds (p : ProviderBehavior) (now : Int)
    (inner : AuthInner) :
    (get_token p now inner).2.1.client_id = inner.client_id
    ∧ (get_token p now inner).2.1.client_secret = inner.client_secret
    ∧ (get_token p now inner).2.1.token_url = inner.token_url := by
  obtain ⟨cid, cs, url, tok⟩ := inner
  cases cid <;> cases cs <;> cases url <;> cases tok <;> cases p <;>
    simp [get_token, get_token_refresh, fetch_token] <;> split <;> simp

theorem wellFormed_client_id_isSome (inner : AuthInner)
    (hwf : inner.wellFormed = true) : inner.client_id.isSome = true := by
  simp [AuthInner.wellFormed] at hwf
  exact hwf.1.1

theorem wellFormed_set_token (inner : AuthInner) (t : Option Token) :
    (AuthInner.wellFormed { inner with token := t }) = inner.wellFormed := rfl

theorem get_token_refresh_count (p : ProviderBehavior) (now : Int)
    (inner : AuthInner) (hwf : inner.wellFormed = true) :
    (get_token_refresh p now inner).2.2 = 1 := by
  cases p <;> simp [get_token_refresh, fetch_token_wf _ _ _ hwf]

theorem get_token_refresh_grant_bound (p : ProviderBehavior) (now : Int)
    (inner : AuthInner) (s : String)
    (hgrant : ∀ tk exp, p = ProviderBehavior.grant tk exp →
      TOKEN_EXPIRY_BUFFER_SECONDS ≤ exp)
    (hs : (get_token_refresh p now inner).1 = Except.ok (some s)) :
    ∃ t, (get_token_refresh p now inner).2.1.token = some t
      ∧ t.access_token = s
      ∧ now + TOKEN_EXPIRY_BUFFER_SECONDS ≤
          t.expires + TOKEN_EXPIRY_BUFFER_SECONDS := by
  obtain ⟨cid, cs, url, tok⟩ := inner
  cases cid with
  | none => simp [get_token_refresh, fetch_token] at hs
  | some a =>
  cases cs with
  | none => simp [get_token_refresh, fetch_token] at hs
  | some b =>
  cases url with
  | none => simp [get_token_refresh, fetch_token] at hs
  | some c =>
  cases p with
  | unreachable => simp [get_token_refresh, fetch_token] at hs
  | reject code => simp [get_token_refresh, fetch_token] at hs
  | malformed => simp [get_token_refresh, fetch_token] at hs
  | grant tk exp =>
    have hexp := hgrant tk exp rfl
    simp [get_token_refresh, fetch_token] at hs ⊢
    exact ⟨hs, by omega⟩

/-! ## Claim theorems -/

/-- C5: a manager built by `Auth::new_public` answers `Ok(None)` on every
`get_token` call, never contacts the token provider, and its cached-token
slot stays absent across any sequence of calls: zero network calls total. -/
theorem public_mode_no_network :
    ∀ calls : List (ProviderBehavior × Int),
      runCalls calls Auth.new_public
        = (calls.map (fun _ => Except.ok none), Auth.new_public, 0) := by
  intro calls
  induction calls with
  | nil => rfl
  | cons c rest ih =>
    obtain ⟨p, now⟩ := c
    simp [runCalls, get_token_no_creds p now Auth.new_public rfl, ih]

/-- C3: with credentials present and a cached token strictly inside its
validity window, `get_token` returns the cached access-token string, makes
no network call and leaves the state unchanged; consequently any sequence of
calls whose clock readings stay inside the window returns the identical
string each time with zero network calls in total. -/
theorem fast_path_idempotent (inner : AuthInner) (t : Token)
    (p : ProviderBehavior) (now : Int)
    (hcid : inner.client_id.isSome = true) (htok : inner.token = some t)
    (hvalid : now < t.expires) :
    get_token p now inner = (Except.ok (some t.access_token), inner, 0)
    ∧ ∀ calls : List (ProviderBehavior × Int),
        (∀ c ∈ calls, c.2 < t.expires) →
        runCalls calls inner
          = (calls.map (fun _ => Except.ok (some t.access_token)), inner, 0) := by
  have hnotexp : ∀ m : Int, m < t.expires → t.is_expired m = false := by
    intro m hm
    simp [Token.is_expired]
    omega
  constructor
  · exact get_token_fast_path p now inner t hcid htok (hnotexp now hvalid)
  · intro calls hall
    induction calls with
    | nil => rfl
    | cons c rest ih =>
      obtain ⟨cp, cn⟩ := c
      have h1 : get_token cp cn inner = (Except.ok (some t.access_token), inner, 0) :=
        get_token_fast_path cp cn inner t hcid htok
          (hnotexp cn (hall (cp, cn) (by simp)))
      have ih2 := ih (fun d hd => hall d (by simp [hd]))
      simp [runCalls, h1, ih2]

/-- C3 witness: a manager with credentials and a token expiring at 100,
queried three times at 0, 50 and 99: same string every time, state
unchanged, no network calls. -/
theorem fast_path_idempotent_witness :
    runCalls
      [(ProviderBehavior.malformed, 0), (ProviderBehavior.unreachable, 50),
       (ProviderBehavior.grant "other" 300, 99)]
      { Auth.new "id" "secret" "url" with token := some ⟨"tok", 100⟩ }
      = ([Except.ok (some "tok"), Except.ok (some "tok"), Except.ok (some "tok")],
         { Auth.new "id" "secret" "url" with token := some ⟨"tok", 100⟩ }, 0) := by
  have h := (fast_path_idempotent
    { Auth.new "id" "secret" "url" with token := some ⟨"tok", 100⟩ }
    ⟨"tok", 100⟩ ProviderBehavior.malformed 0 (by decide) rfl (by decide)).2
    [(ProviderBehavior.malformed, 0), (ProviderBehavior.unreachable, 50),
     (ProviderBehavior.grant "other" 300, 99)] (by decide)
  simpa using h

/-- C2: every successful refresh stores exactly
`expires_at = now + expires_in - 30` with no clamping; when
`expires_in ≤ 30` the stored expiry is at or before now (accepted as-is),
so the very next `get_token` call performs another provider request; and
for `expires_in = 300` the token is still valid at `now + 269` and already
expired at `now + 271`. -/
theorem refresh_expiry_arithmetic (inner : AuthInner) (now now2 : Int)
    (tk : String) (exp : Int) (hwf : inner.wellFormed = true) :
    fetch_token (ProviderBehavior.grant tk exp) now inner
      = (Except.ok ⟨tk, now + (exp - TOKEN_EXPIRY_BUFFER_SECONDS)⟩,
         { inner with token := some ⟨tk, now + (exp - TOKEN_EXPIRY_BUFFER_SECONDS)⟩ },
         1)
    ∧ (exp ≤ TOKEN_EXPIRY_BUFFER_SECONDS →
        now + (exp - TOKEN_EXPIRY_BUFFER_SECONDS) ≤ now)
    ∧ (exp = 300 →
        Token.is_expired ⟨tk, now + (exp - TOKEN_EXPIRY_BUFFER_SECONDS)⟩ (now + 269) = false
        ∧ Token.is_expired ⟨tk, now + (exp - TOKEN_EXPIRY_BUFFER_SECONDS)⟩ (now + 271) = true)
    ∧ (exp ≤ TOKEN_EXPIRY_BUFFER_SECONDS → now ≤ now2 → ∀ p2,
        (get_token p2 now2
          { inner with token := some ⟨tk, now + (exp - TOKEN_EXPIRY_BUFFER_SECONDS)⟩ }).2.2
          = 1) := by
  refine ⟨fetch_token_wf _ _ _ hwf, by intro h; omega, ?_, ?_⟩
  · intro h
    subst h
    constructor <;> simp [Token.is_expired, TOKEN_EXPIRY_BUFFER_SECONDS]
  · intro hle hnow p2
    have hwf2 : (AuthInner.wellFormed
        { inner with token := some ⟨tk, now + (exp - TOKEN_EXPIRY_BUFFER_SECONDS)⟩ }) = true := by
      simpa [wellFormed_set_token] using hwf
    have hcid2 := wellFormed_client_id_isSome _ hwf2
    have hinv : (AuthInner.tokenInvalid
        { inner with token := some ⟨tk, now + (exp - TOKEN_EXPIRY_BUFFER_SECONDS)⟩ } now2) = true := by
      simp [AuthInner.tokenInvalid, Token.is_expired]
      omega
    rw [get_token_refresh_path p2 now2 _ hcid2 hinv]
    exact get_token_refresh_count p2 now2 _ hwf2

/-- C2 witness: concrete instance with `expires_in = 20 ≤ 30`: the stored
expiry is `0 + (20 - 30) = -10`, and the next call (here against a provider
answering with a malformed body) performs a provider request. -/
theorem refresh_expiry_arithmetic_witness :
    fetch_token (ProviderBehavior.grant "tok" 20) 0 (Auth.new "id" "secret" "url")
      = (Except.ok ⟨"tok", 0 + (20 - TOKEN_EXPIRY_BUFFER_SECONDS)⟩,
         { Auth.new "id" "secret" "url" with
             token := some ⟨"tok", 0 + (20 - TOKEN_EXPIRY_BUFFER_SECONDS)⟩ },
         1)
    ∧ (get_token ProviderBehavior.malformed 1
         { Auth.new "id" "secret" "url" with
             token := some ⟨"tok", 0 + (20 - TOKEN_EXPIRY_BUFFER_SECONDS)⟩ }).2.2 = 1 :=
  ⟨(refresh_expiry_arithmetic (Auth.new "id" "secret" "url") 0 1 "tok" 20 rfl).1,
   (refresh_expiry_arithmetic (Auth.new "id" "secret" "url") 0 1 "tok" 20 rfl).2.2.2
     (by decide) (by decide) ProviderBehavior.malformed⟩

/-- C1 counterexample: with credentials present, an empty cache and a
provider granting `expires_in = 0`, `get_token` at time 0 returns the fresh
token, yet the token's provider-granted lifetime — the stored `expires_at`
plus the 30-second buffer — is 0, which is sooner than 30 seconds from now.
So the claim fails for small `expires_in`. -/
theorem expiry_buffer_guarantee_counterexample :
    (get_token (ProviderBehavior.grant "tok" 0) 0 (Auth.new "id" "secret" "url")).1
      = Except.ok (some "tok")
    ∧ (get_token (ProviderBehavior.grant "tok" 0) 0 (Auth.new "id" "secret" "url")).2.1.token
      = some ⟨"tok", -30⟩
    ∧ ¬ ((0 : Int) + TOKEN_EXPIRY_BUFFER_SECONDS ≤ -30 + TOKEN_EXPIRY_BUFFER_SECONDS) := by
  refine ⟨rfl, by decide, by decide⟩

/-- C1 amended: provided every grant the provider can issue carries
`expires_in ≥ 30`, any token string `get_token` hands out — cached or
freshly fetched — belongs to a token whose provider-granted lifetime
(stored `expires_at` plus the 30-second buffer) reaches at least 30 seconds
past the current time. Without that proviso the guarantee holds for
cache-served tokens only. -/
theorem expiry_buffer_guarantee_amended (inner : AuthInner)
    (p : ProviderBehavior) (now : Int)
    (hgrant : ∀ tk exp, p = ProviderBehavior.grant tk exp →
      TOKEN_EXPIRY_BUFFER_SECONDS ≤ exp) :
    ∀ s, (get_token p now inner).1 = Except.ok (some s) →
      ∃ t, (get_token p now inner).2.1.token = some t
        ∧ t.access_token = s
        ∧ now + TOKEN_EXPIRY_BUFFER_SECONDS ≤
            t.expires + TOKEN_EXPIRY_BUFFER_SECONDS := by
  intro s hs
  by_cases hcid : inner.client_id.isNone
  · rw [get_token, if_pos hcid] at hs ⊢
    simp at hs
  · have hcid2 : inner.client_id.isSome = true := by
      cases hc : inner.client_id <;> simp [hc] at hcid ⊢
    cases htok : inner.token with
    | some t =>
      cases hv : t.is_expired now with
      | false =>
        rw [get_token_fast_path p now inner t hcid2 htok hv] at hs ⊢
        simp at hs ⊢
        refine ⟨t, htok, hs, ?_⟩
        have hlt : ¬ (t.expires ≤ now) := by
          simpa [Token.is_expired] using hv
        omega
      | true =>
        have hinv : inner.tokenInvalid now = true := by
          simp [AuthInner.tokenInvalid, htok, hv]
        rw [get_token_refresh_path p now inner hcid2 hinv] at hs ⊢
        exact get_token_refresh_grant_bound p now inner s hgrant hs
    | none =>
      have hinv : inner.tokenInvalid now = true := by
        simp [AuthInner.tokenInvalid, htok]
      rw [get_token_refresh_path p now inner hcid2 hinv] at hs ⊢
      exact get_token_refresh_grant_bound p now inner s hgrant hs

/-- C1 amended witness: a fresh fetch with `expires_in = 300` at time 0
yields a token whose provider-granted lifetime reaches 30 seconds past now. -/
theorem expiry_buffer_guarantee_amended_witness :
    ∃ t, (get_token (ProviderBehavior.grant "tok" 300) 0
            (Auth.new "id" "secret" "url")).2.1.token = some t
      ∧ t.access_token = "tok"
      ∧ (0 : Int) + TOKEN_EXPIRY_BUFFER_SECONDS ≤
          t.expires + TOKEN_EXPIRY_BUFFER_SECONDS :=
  expiry_buffer_guarantee_amended (Auth.new "id" "secret" "url")
    (ProviderBehavior.grant "tok" 300) 0
    (by
      intro tk exp h
      injection h with h1 h2
      subst h2
      decide)
    "tok" rfl

theorem tokenInvalid_mono (inner : AuthInner) (now now2 : Int)
    (h : inner.tokenInvalid now = true) (hle : now ≤ now2) :
    inner.tokenInvalid now2 = true := by
  cases htok : inner.token with
  | none => simp [AuthInner.tokenInvalid, htok]
  | some t =>
    simp [AuthInner.tokenInvalid, htok, Token.is_expired] at h ⊢
    omega

/-- C4: when the refresh path is taken (credentials present, cached token
absent or expired) and the provider fails — transport error, non-2xx or
malformed body — `get_token` returns an error, the whole state including the
previously cached token is left unchanged, and no token string is served in
place of the failure; a later call at any time `now2 ≥ now` against a
granting provider performs a fresh refresh (one provider request) and
succeeds with the new token. -/
theorem refresh_failure_recoverable (inner : AuthInner) (p : ProviderBehavior)
    (now now2 : Int) (tk : String) (exp : Int)
    (hwf : inner.wellFormed = true) (hfail : p.isFailing = true)
    (hinv : inner.tokenInvalid now = true) (hle : now ≤ now2) :
    (∃ e, get_token p now inner = (Except.error e, inner, 1))
    ∧ get_token (ProviderBehavior.grant tk exp) now2 inner
        = (Except.ok (some tk),
           { inner with token := some ⟨tk, now2 + (exp - TOKEN_EXPIRY_BUFFER_SECONDS)⟩ },
           1) := by
  have hcid := wellFormed_client_id_isSome inner hwf
  constructor
  · rw [get_token_refresh_path p now inner hcid hinv]
    cases p with
    | unreachable =>
      exact ⟨Error.Reqwest ⟨ReqwestErrorKind.connect⟩,
        by simp [get_token_refresh, fetch_token_wf _ _ _ hwf]⟩
    | reject code =>
      exact ⟨Error.Reqwest ⟨ReqwestErrorKind.status code⟩,
        by simp [get_token_refresh, fetch_token_wf _ _ _ hwf]⟩
    | malformed =>
      exact ⟨Error.Reqwest ⟨ReqwestErrorKind.decode⟩,
        by simp [get_token_refresh, fetch_token_wf _ _ _ hwf]⟩
    | grant tk2 exp2 => simp [ProviderBehavior.isFailing] at hfail
  · rw [get_token_refresh_path _ now2 inner hcid (tokenInvalid_mono inner now now2 hinv hle)]
    simp [get_token_refresh, fetch_token_wf _ _ _ hwf]

/-- C4 witness: a rejected refresh at time 0 leaves the fresh manager
unchanged and errors; a retry at time 5 against a granting provider
succeeds. -/
theorem refresh_failure_recoverable_witness :
    (∃ e, get_token (ProviderBehavior.reject 500) 0 (Auth.new "id" "secret" "url")
        = (Except.error e, Auth.new "id" "secret" "url", 1))
    ∧ get_token (ProviderBehavior.grant "tok2" 300) 5 (Auth.new "id" "secret" "url")
        = (Except.ok (some "tok2"),
           { Auth.new "id" "secret" "url" with
               token := some ⟨"tok2", 5 + (300 - TOKEN_EXPIRY_BUFFER_SECONDS)⟩ },
           1) :=
  refresh_failure_recoverable (Auth.new "id" "secret" "url")
    (ProviderBehavior.reject 500) 0 5 "tok2" 300 rfl rfl rfl (by decide)

/-- C6: the request-sending methods of `Client` attach the Authorization
header unconditionally — it is present even when `get_token` returned no
token, and when a token is present the header value is not
`Bearer <token>` (the `format!` argument is the `Option`, not the token;
the crate's own mocked tests require exactly `Bearer test_token`). The
claimed present-iff-token behaviour does not hold. -/
theorem authorization_header_unconditional :
    ((requestHeaders none).lookup "Authorization").isSome = true
    ∧ requestHeaders (some "test_token")
        ≠ [("Authorization", "Bearer test_token")] := by
  constructor
  · rfl
  · decide

/-- C7 counterexample: a non-2xx answer from the token endpoint surfaces as
`Error::Reqwest` (not a dedicated ProviderRejected kind); `Client::get`
propagates it unwrapped; and a downstream API rejection with the same
status yields the very same `Error` value — so the caller cannot identify
the failure as an authorization failure distinct from a downstream API
error. -/
theorem error_taxonomy_counterexample :
    (get_token (ProviderBehavior.reject 503) 0 (Auth.new "id" "secret" "url")).1
      = Except.error (Error.Reqwest ⟨ReqwestErrorKind.status 503⟩)
    ∧ (clientGet (ProviderBehavior.reject 503) (ApiBehavior.ok "body") 0
        (Auth.new "id" "secret" "url")).1
      = Except.error (Error.Reqwest ⟨ReqwestErrorKind.status 503⟩)
    ∧ (clientGet (ProviderBehavior.grant "tok" 300) (ApiBehavior.reject 503) 0
        (Auth.new "id" "secret" "url")).1
      = Except.error (Error.Reqwest ⟨ReqwestErrorKind.status 503⟩) :=
  ⟨rfl, rfl, rfl⟩

/-- C7 amended: each refresh failure cause reaches the caller as the single
`Error::Reqwest` variant, distinguishable only through the wrapped reqwest
error's kind — connect for transport failure, status (with the code) for a
non-2xx, decode for a malformed body; `Client::get` propagates the value
unchanged, with no added context marking it as an authorization failure. -/
theorem error_taxonomy_amended (inner : AuthInner) (now : Int) (code : Nat)
    (hwf : inner.wellFormed = true) (hinv : inner.tokenInvalid now = true) :
    (get_token ProviderBehavior.unreachable now inner).1
      = Except.error (Error.Reqwest ⟨ReqwestErrorKind.connect⟩)
    ∧ (get_token (ProviderBehavior.reject code) now inner).1
      = Except.error (Error.Reqwest ⟨ReqwestErrorKind.status code⟩)
    ∧ (get_token ProviderBehavior.malformed now inner).1
      = Except.error (Error.Reqwest ⟨ReqwestErrorKind.decode⟩)
    ∧ ∀ api, (clientGet (ProviderBehavior.reject code) api now inner).1
        = Except.error (Error.Reqwest ⟨ReqwestErrorKind.status code⟩) := by
  have hcid := wellFormed_client_id_isSome inner hwf
  refine ⟨?_, ?_, ?_, ?_⟩
  · rw [get_token_refresh_path _ now inner hcid hinv]
    simp [get_token_refresh, fetch_token_wf _ _ _ hwf]
  · rw [get_token_refresh_path _ now inner hcid hinv]
    simp [get_token_refresh, fetch_token_wf _ _ _ hwf]
  · rw [get_token_refresh_path _ now inner hcid hinv]
    simp [get_token_refresh, fetch_token_wf _ _ _ hwf]
  · intro api
    rw [clientGet, get_token_refresh_path _ now inner hcid hinv]
    simp [get_token_refresh, fetch_token_wf _ _ _ hwf]

/-- C7 amended witness: concrete transport failure and propagated rejection. -/
theorem error_taxonomy_amended_witness :
    (get_token ProviderBehavior.unreachable 0 (Auth.new "id" "secret" "url")).1
      = Except.error (Error.Reqwest ⟨ReqwestErrorKind.connect⟩)
    ∧ (clientGet (ProviderBehavior.reject 503) (ApiBehavior.ok "b") 0
        (Auth.new "id" "secret" "url")).1
      = Except.error (Error.Reqwest ⟨ReqwestErrorKind.status 503⟩) :=
  ⟨(error_taxonomy_amended (Auth.new "id" "secret" "url") 0 503 rfl rfl).1,
   (error_taxonomy_amended (Auth.new "id" "secret" "url") 0 503 rfl rfl).2.2.2
     (ApiBehavior.ok "b")⟩

theorem runCalls_valid_window (inner : AuthInner) (t : Token)
    (hcid : inner.client_id.isSome = true) (htok : inner.token = some t) :
    ∀ calls : List (ProviderBehavior × Int),
      (∀ c ∈ calls, c.2 < t.expires) →
      runCalls calls inner
        = (calls.map (fun _ => Except.ok (some t.access_token)), inner, 0) := by
  intro calls hall
  induction calls with
  | nil => rfl
  | cons c rest ih =>
    obtain ⟨cp, cn⟩ := c
    have h1 : get_token cp cn inner = (Except.ok (some t.access_token), inner, 0) :=
      get_token_fast_path cp cn inner t hcid htok
        (by
          have := hall (cp, cn) (by simp)
          simp [Token.is_expired]
          omega)
    have ih2 := ih (fun d hd => hall d (by simp [hd]))
    simp [runCalls, h1, ih2]

/-- C8 counterexample: two callers racing against an absent cache — which
the mutex serializes into two consecutive `get_token` executions at the same
instant — against a provider granting `expires_in = 10` cause the provider
to observe two token-issuing requests, not exactly one: the token fetched by
the first caller is already expired when the second caller inspects it. -/
theorem single_refresh_counterexample :
    (runCalls
      [(ProviderBehavior.grant "tok" 10, 0), (ProviderBehavior.grant "tok" 10, 0)]
      (Auth.new "id" "secret" "url")).2.2 = 2
    ∧ (runCalls
      [(ProviderBehavior.grant "tok" 10, 0), (ProviderBehavior.grant "tok" 10, 0)]
      (Auth.new "id" "secret" "url")).1
      = [Except.ok (some "tok"), Except.ok (some "tok")] :=
  ⟨rfl, rfl⟩

/-- C8 amended: with the check-and-refresh serialized into consecutive
critical sections by the mutex, any number of callers racing at a common
instant against an expired or absent cache cause exactly one token-issuing
request and all receive the same token string — provided the provider
grants `expires_in` strictly greater than the 30-second buffer (otherwise
each caller refreshes again, as the counterexample shows). -/
theorem single_refresh_amended (inner : AuthInner) (now : Int) (tk : String)
    (exp : Int) (k : Nat) (hwf : inner.wellFormed = true)
    (hinv : inner.tokenInvalid now = true)
    (hexp : TOKEN_EXPIRY_BUFFER_SECONDS < exp) :
    runCalls (List.replicate (k + 1) (ProviderBehavior.grant tk exp, now)) inner
      = (List.replicate (k + 1) (Except.ok (some tk)),
         { inner with token := some ⟨tk, now + (exp - TOKEN_EXPIRY_BUFFER_SECONDS)⟩ },
         1) := by
  have hfirst : get_token (ProviderBehavior.grant tk exp) now inner
      = (Except.ok (some tk),
         { inner with token := some ⟨tk, now + (exp - TOKEN_EXPIRY_BUFFER_SECONDS)⟩ },
         1) := by
    rw [get_token_refresh_path _ now inner (wellFormed_client_id_isSome inner hwf) hinv]
    simp [get_token_refresh, fetch_token_wf _ _ _ hwf]
  have htail := runCalls_valid_window
    { inner with token := some ⟨tk, now + (exp - TOKEN_EXPIRY_BUFFER_SECONDS)⟩ }
    ⟨tk, now + (exp - TOKEN_EXPIRY_BUFFER_SECONDS)⟩
    (by simpa using wellFormed_client_id_isSome inner hwf) rfl
    (List.replicate k (ProviderBehavior.grant tk exp, now))
    (by
      intro c hc
      have hcr := List.eq_of_mem_replicate hc
      subst hcr
      simp [TOKEN_EXPIRY_BUFFER_SECONDS] at hexp ⊢
      omega)
  simp [List.replicate_succ, runCalls, hfirst, htail, List.map_replicate]

/-- C8 amended witness: three racing callers, provider grants 300 seconds:
one provider request, all three see "tok". -/
theorem single_refresh_amended_witness :
    runCalls (List.replicate 3 (ProviderBehavior.grant "tok" 300, 0))
      (Auth.new "id" "secret" "url")
      = (List.replicate 3 (Except.ok (some "tok")),
         { Auth.new "id" "secret" "url" with
             token := some ⟨"tok", 0 + (300 - TOKEN_EXPIRY_BUFFER_SECONDS)⟩ },
         1) :=
  single_refresh_amended (Auth.new "id" "secret" "url") 0 "tok" 300 2
    rfl rfl (by decide)

theorem get_token_not_auth_err (p : ProviderBehavior) (now : Int)
    (inner : AuthInner) (hwf : inner.wellFormed = true) :
    resultIsAuthErr (get_token p now inner).1 = false := by
  have hcid := wellFormed_client_id_isSome inner hwf
  cases htok : inner.token with
  | some t =>
    cases hv : t.is_expired now with
    | false => rw [get_token_fast_path p now inner t hcid htok hv]; rfl
    | true =>
      rw [get_token_refresh_path p now inner hcid
        (by simp [AuthInner.tokenInvalid, htok, hv])]
      cases p <;> simp [get_token_refresh, fetch_token_wf _ _ _ hwf, resultIsAuthErr]
  | none =>
    rw [get_token_refresh_path p now inner hcid
      (by simp [AuthInner.tokenInvalid, htok])]
    cases p <;> simp [get_token_refresh, fetch_token_wf _ _ _ hwf, resultIsAuthErr]

theorem get_token_preserves_wellFormed (p : ProviderBehavior) (now : Int)
    (inner : AuthInner) :
    (get_token p now inner).2.1.wellFormed = inner.wellFormed := by
  obtain ⟨h1, h2, h3⟩ := get_token_preserves_creds p now inner
  simp [AuthInner.wellFormed, h1, h2, h3]

theorem runCalls_no_auth_err (calls : List (ProviderBehavior × Int))
    (inner : AuthInner) (hwf : inner.wellFormed = true) :
    ((runCalls calls inner).1.all fun r => ! resultIsAuthErr r) = true := by
  induction calls generalizing inner with
  | nil => rfl
  | cons c rest ih =>
    obtain ⟨p, now⟩ := c
    simp only [runCalls, List.all_cons, Bool.and_eq_true]
    exact ⟨by simp [get_token_not_auth_err p now inner hwf],
           ih (get_token p now inner).2.1
             (by rw [get_token_preserves_wellFormed]; exact hwf)⟩

/-- C9: over any sequence of calls, a manager produced by `Auth::new` never
surfaces the defensive `Error::Auth` misconfiguration errors (all three
credential fields are populated at construction and preserved), a manager
produced by `Auth::new_public` never does either (its missing-credentials
state is screened out before `fetch_token`), and when the defensive branch
is exercised on a hand-made inconsistent state it yields a distinct
reportable `Error::Auth` value — the model is total, no panic. -/
theorem misconfigured_branches_unreachable :
    (∀ cid cs url : String, ∀ calls : List (ProviderBehavior × Int),
      ((runCalls calls (Auth.new cid cs url)).1.all
        fun r => ! resultIsAuthErr r) = true)
    ∧ (∀ calls : List (ProviderBehavior × Int),
      ((runCalls calls Auth.new_public).1.all
        fun r => ! resultIsAuthErr r) = true)
    ∧ (∀ p : ProviderBehavior, ∀ now : Int,
      (fetch_token p now { Auth.new_public with client_id := some "id" }).1
        = Except.error (Error.Auth "client_secret not set")) := by
  refine ⟨?_, ?_, ?_⟩
  · intro cid cs url calls
    exact runCalls_no_auth_err calls (Auth.new cid cs url) rfl
  · intro calls
    induction calls with
    | nil => rfl
    | cons c rest ih =>
      obtain ⟨p, now⟩ := c
      simp only [runCalls, get_token_no_creds p now Auth.new_public rfl,
        List.all_cons, Bool.and_eq_true]
      exact ⟨rfl, ih⟩
  · intro p now
    rfl

/-- C10: `get_token` answers `Ok(None)` exactly when the manager has no
`client_id` — so in authenticated mode every successful call returns a
present token string, and observing `Ok(None)` proves the manager is
public; moreover after a refresh the freshly fetched token is returned
unconditionally, with no re-check of its computed expiry (here with an
arbitrary `expires_in`, even one making the token already expired). -/
theorem authenticated_some_token :
    (∀ inner : AuthInner, ∀ p : ProviderBehavior, ∀ now : Int,
      ((get_token p now inner).1 = Except.ok none ↔ inner.client_id = none))
    ∧ (∀ inner : AuthInner, ∀ now : Int, ∀ tk : String, ∀ exp : Int,
      inner.wellFormed = true → inner.tokenInvalid now = true →
      get_token (ProviderBehavior.grant tk exp) now inner
        = (Except.ok (some tk),
           { inner with token := some ⟨tk, now + (exp - TOKEN_EXPIRY_BUFFER_SECONDS)⟩ },
           1)) := by
  constructor
  · intro inner p now
    obtain ⟨cid, cs, url, tok⟩ := inner
    cases cid with
    | none => simp [get_token]
    | some a =>
      have hne : (get_token p now ⟨some a, cs, url, tok⟩).1 ≠ Except.ok none := by
        cases tok with
        | some t =>
          cases hv : t.is_expired now with
          | false =>
            rw [get_token_fast_path p now _ t (by simp) rfl hv]
            simp
          | true =>
            rw [get_token_refresh_path p now _ (by simp)
              (by simp [AuthInner.tokenInvalid, hv])]
            cases cs <;> cases url <;> cases p <;>
              simp [get_token_refresh, fetch_token]
        | none =>
          rw [get_token_refresh_path p now _ (by simp)
            (by simp [AuthInner.tokenInvalid])]
          cases cs <;> cases url <;> cases p <;>
            simp [get_token_refresh, fetch_token]
      simp [hne]
  · intro inner now tk exp hwf hinv
    rw [get_token_refresh_path _ now inner (wellFormed_client_id_isSome inner hwf) hinv]
    simp [get_token_refresh, fetch_token_wf _ _ _ hwf]

/-- C10 witness: a fresh authenticated manager, provider grants
`expires_in = 0`: the already-expired fresh token is still returned. -/
theorem authenticated_some_token_witness :
    get_token (ProviderBehavior.grant "tok" 0) 0 (Auth.new "id" "secret" "url")
      = (Except.ok (some "tok"),
         { Auth.new "id" "secret" "url" with
             token := some ⟨"tok", 0 + (0 - TOKEN_EXPIRY_BUFFER_SECONDS)⟩ },
         1) :=
  authenticated_some_token.2 (Auth.new "id" "secret" "url") 0 "tok" 0 rfl rfl
